import Mathlib

/-!
Shallow embedding of src/src/persistence.js (nedb-indexeddb persistence layer).

The embedding models the IndexedDB store as a key-sorted association list
(IndexedDB cursors iterate in ascending key order), per-request success or
failure as an oracle, and the caller-visible effects of each operation as the
list of store operations attempted, the sequence of invocations of the
caller's callback, and the messages written via console.error.

Transaction events are modelled after IndexedDB semantics: a request error
whose handler does not call preventDefault (none of the handlers in this file
do) aborts the transaction, the error event bubbles to the transaction where
trx.onerror runs, and trx.oncomplete never fires; when every request succeeds
the transaction completes and trx.oncomplete fires.
-/

/-- A document as persisted by this layer: its key field and the flag fields
the persistence code inspects, plus an opaque payload for the rest. -/
structure Doc where
  _id : String
  deleted : Bool
  indexCreated : Bool
  indexRemoved : Bool
  payload : String
deriving DecidableEq, Repr

/-- The durable object store: association list from key to document, kept in
ascending key order, which is the order an IndexedDB cursor yields records. -/
abbrev Store := List (String × Doc)

/-- Keys of the store in cursor (ascending) order. -/
def storeGetKeys (s : Store) : List String := s.map Prod.fst

/-- Lexicographic order on character lists by code point, the order IndexedDB
uses for string keys. -/
def charListLt : List Char → List Char → Bool
  | [], [] => false
  | [], _ :: _ => true
  | _ :: _, [] => false
  | c1 :: r1, c2 :: r2 =>
    if c1.toNat < c2.toNat then true
    else if c2.toNat < c1.toNat then false
    else charListLt r1 r2

/-- IndexedDB key order on string keys. -/
def keyLt (a b : String) : Bool := charListLt a.data b.data

/-- IDBObjectStore.put: insert or replace at the document key, keeping the
list sorted by key. -/
def storePut : Store → String → Doc → Store
  | [], k, v => [(k, v)]
  | (k1, v1) :: rest, k, v =>
    if k = k1 then (k, v) :: rest
    else if keyLt k k1 then (k, v) :: (k1, v1) :: rest
    else (k1, v1) :: storePut rest k v

/-- IDBObjectStore.delete: remove the key if present. -/
def storeDelete : Store → String → Store
  | [], _ => []
  | (k1, v1) :: rest, k => if k = k1 then rest else (k1, v1) :: storeDelete rest k

/-- JavaScript Array.prototype.indexOf: index of the element, or -1. -/
def jsIndexOf (l : List String) (x : String) : Int :=
  match l.indexOf? x with
  | some i => Int.ofNat i
  | none => -1

/-- JavaScript Array.prototype.splice(start, 1): remove one element at start,
where a negative start counts from the end (actual start is
max(length + start, 0), clamped above by length). -/
def jsSpliceRemoveOne (l : List String) (start : Int) : List String :=
  let s : Nat :=
    (if start < 0 then max ((l.length : Int) + start) 0
     else min start (l.length : Int)).toNat
  l.take s ++ l.drop (s + 1)

/-- The keysToDelete bookkeeping run in putReq.onsuccess of
persistCachedDatabase, exactly as written at persistence.js line 137:
if (keysToDelete.indexOf(o._id) === -1)
  keysToDelete.splice(keysToDelete.indexOf(o._id), 1). -/
def putBookkeeping (keysToDelete : List String) (id : String) : List String :=
  if jsIndexOf keysToDelete id = -1 then
    jsSpliceRemoveOne keysToDelete (jsIndexOf keysToDelete id)
  else keysToDelete

/-- Errors the persistence layer can deliver (the code builds message strings;
the constructors record which message with which key). -/
inductive PErr where
  | openErr
  | trxErr
  | putErr (id : String)
  | delErr (k : String)
deriving DecidableEq, Repr

/-- Store operations attempted against the durable store. -/
inductive StoreOp where
  | openCursor
  | put (k : String)
  | del (k : String)
deriving DecidableEq, Repr

/-- Per-request failure injection: whether opening the database fails, and
whether a put or delete request for a given key fails. -/
structure Oracle where
  openFails : Bool
  putFails : String → Bool
  delFails : String → Bool

/-- Result of the upsert phase of persistCachedDatabase. -/
structure PutPhaseRes where
  store : Store
  ktd : List String
  ops : List StoreOp
  err : Option PErr
deriving DecidableEq, Repr

/-- Result of the delete phase of persistCachedDatabase. -/
structure DelPhaseRes where
  store : Store
  ops : List StoreOp
  err : Option PErr
deriving DecidableEq, Repr

/-- Upsert phase of persistCachedDatabase (async.eachSeries over objects):
put each snapshot document in order; on success run the keysToDelete
bookkeeping; on failure invoke the series callback with the put error, which
aborts the series before any later document is processed. -/
def pcdbPutPhase (orc : Oracle) : List Doc → Store → List String → PutPhaseRes
  | [], st, ktd => ⟨st, ktd, [], none⟩
  | o :: os, st, ktd =>
    if orc.putFails o._id then
      ⟨st, ktd, [StoreOp.put o._id], some (PErr.putErr o._id)⟩
    else
      let r := pcdbPutPhase orc os (storePut st o._id o) (putBookkeeping ktd o._id)
      ⟨r.store, r.ktd, StoreOp.put o._id :: r.ops, r.err⟩

/-- Delete phase of persistCachedDatabase (async.eachSeries over remaining
keysToDelete): delete each key; on failure the series callback receives the
delete error and the series aborts. -/
def pcdbDelPhase (orc : Oracle) : List String → Store → DelPhaseRes
  | [], st => ⟨st, [], none⟩
  | k :: ks, st =>
    if orc.delFails k then ⟨st, [StoreOp.del k], some (PErr.delErr k)⟩
    else
      let r := pcdbDelPhase orc ks (storeDelete st k)
      ⟨r.store, StoreOp.del k :: r.ops, r.err⟩

/-- Observable outcome of one persistence operation: final store contents,
store operations attempted, invocations of the caller's callback in order
(none is callback(null)), and console.error output. -/
structure PersistRes where
  store : Store
  ops : List StoreOp
  calls : List (Option PErr)
  consoleErrs : List PErr
deriving DecidableEq, Repr

/-- Persistence.prototype.persistCachedDatabase. If inMemoryOnly, succeed at
once with no store operation. Otherwise open a write transaction (open
failure is surfaced as callback(err)); scan the store with a cursor,
collecting every existing key into keysToDelete; run the upsert phase; in its
final callback do callback(err) when the series aborted, then, without
returning, run the delete phase over the remaining keysToDelete, whose final
callback only console.errors a series error. A failed request aborts the
transaction, so trx.onerror delivers a transaction error to the callback;
otherwise trx.oncomplete delivers callback(null). -/
def persistCachedDatabase (inMemoryOnly : Bool) (orc : Oracle)
    (objects : List Doc) (st : Store) : PersistRes :=
  if inMemoryOnly then ⟨st, [], [none], []⟩
  else if orc.openFails then ⟨st, [], [some PErr.openErr], []⟩
  else
    let p := pcdbPutPhase orc objects st (storeGetKeys st)
    let d := pcdbDelPhase orc p.ktd p.store
    let callsHead : List (Option PErr) :=
      match p.err with
      | some e => [some e]
      | none => []
    let trxCall : Option PErr :=
      if p.err.isSome || d.err.isSome then some PErr.trxErr else none
    ⟨d.store, StoreOp.openCursor :: (p.ops ++ d.ops), callsHead ++ [trxCall],
     match d.err with
     | some e => [e]
     | none => []⟩

/-- Identifiers in scope inside the delReq.onerror handler of persistNewState
(line 193 of persistence.js): the module-level bindings, the parameters and
locals of persistNewState and of its nested callbacks, and the handler's own
event parameter slot. The identifier k is not among them. -/
def persistNewStateDelHandlerScope : List String :=
  ["model", "async", "customUtils", "Index", "Persistence", "openDbEnsureStore",
   "objects", "callback", "err", "trx", "store", "o", "delReq", "putReq", "event"]

/-- How the async.eachSeries over the delta in persistNewState ends. -/
inductive PNSHalt where
  | notRun
  | done
  | stalledMeta (id : String)
  | abortedPutErr (id : String)
  | abortedDelErr (k : String)
  | refError
deriving DecidableEq, Repr

/-- Result of the eachSeries loop of persistNewState. -/
structure PNSLoopRes where
  store : Store
  ops : List StoreOp
  halt : PNSHalt
deriving DecidableEq, Repr

/-- The async.eachSeries body of persistNewState, document by document in
delta order. A tombstoned document is deleted; on delete failure the handler
evaluates the identifier k, which resolves through the enclosing scopes; since
k is not bound there, a ReferenceError is raised and the series callback is
never invoked. A non-marker document is put; on put failure the series
callback receives the error and the series aborts. A metadata marker
(indexCreated or indexRemoved) matches no branch, so the series callback is
never invoked and the series stalls. -/
def pnsLoop (orc : Oracle) : List Doc → Store → PNSLoopRes
  | [], st => ⟨st, [], PNSHalt.done⟩
  | o :: os, st =>
    if o.deleted then
      if orc.delFails o._id then
        ⟨st, [StoreOp.del o._id],
         if "k" ∈ persistNewStateDelHandlerScope then PNSHalt.abortedDelErr o._id
         else PNSHalt.refError⟩
      else
        let r := pnsLoop orc os (storeDelete st o._id)
        ⟨r.store, StoreOp.del o._id :: r.ops, r.halt⟩
    else if !o.indexCreated && !o.indexRemoved then
      if orc.putFails o._id then
        ⟨st, [StoreOp.put o._id], PNSHalt.abortedPutErr o._id⟩
      else
        let r := pnsLoop orc os (storePut st o._id o)
        ⟨r.store, StoreOp.put o._id :: r.ops, r.halt⟩
    else ⟨st, [], PNSHalt.stalledMeta o._id⟩

/-- Result of persistNewState, with the halt mode of its series exposed. -/
structure PNSRes where
  store : Store
  ops : List StoreOp
  calls : List (Option PErr)
  consoleErrs : List PErr
  halt : PNSHalt
deriving DecidableEq, Repr

/-- Persistence.prototype.persistNewState. Open failure is surfaced via
callback(err). Otherwise the eachSeries loop runs; its final callback takes
no argument and tests the enclosing err variable, which is the open error and
is null on this path, so no series error is ever logged. If some request
failed the transaction aborts and trx.onerror delivers a transaction error;
otherwise trx.oncomplete delivers callback(null). -/
def persistNewState (orc : Oracle) (objects : List Doc) (st : Store) : PNSRes :=
  if orc.openFails then ⟨st, [], [some PErr.openErr], [], PNSHalt.notRun⟩
  else
    let r := pnsLoop orc objects st
    let failed : Bool :=
      match r.halt with
      | PNSHalt.abortedPutErr _ => true
      | PNSHalt.abortedDelErr _ => true
      | PNSHalt.refError => true
      | _ => false
    ⟨r.store, r.ops, [if failed then some PErr.trxErr else none], [], r.halt⟩

/-- Identifiers bound locally in Persistence.prototype.loadDatabase and at
module scope: no binding named self exists, so the bare identifier self in
the in-memory-only check resolves to the browser global window.self. -/
def loadDatabaseScope : List String :=
  ["model", "async", "customUtils", "Index", "Persistence", "openDbEnsureStore",
   "callback", "db", "err", "trx", "store", "curReq", "objects", "cursor", "event"]

/-- Truthiness of window.self.inMemoryOnly: the global window object has no
inMemoryOnly property, so the value is undefined, which is falsy. -/
def globalSelfInMemoryOnly : Bool := false

/-- The condition actually tested by the line if (self.inMemoryOnly) in
loadDatabase: were self in scope it would carry the instance flag, but it is
not, so the global value is read. -/
def loadDbInMemoryCheck (thisInMemoryOnly : Bool) : Bool :=
  if "self" ∈ loadDatabaseScope then thisInMemoryOnly else globalSelfInMemoryOnly

/-- Result of loadDatabase: store operations attempted, callback invocations,
the arguments of each db.resetIndexes call in order (none is the zero-argument
call), and how many times executor.processBuffer ran. -/
structure LoadRes where
  ops : List StoreOp
  calls : List (Option PErr)
  resetCalls : List (Option (List Doc))
  processBufferRuns : Nat
deriving DecidableEq, Repr

/-- Persistence.prototype.loadDatabase. It first calls db.resetIndexes(), then
tests self.inMemoryOnly (see loadDbInMemoryCheck), then opens a write
transaction; open failure is surfaced via callback(err). On success the cursor
accumulates every record; at cursor end db.resetIndexes(objects) runs, and on
transaction completion executor.processBuffer runs and callback(null) fires. -/
def loadDatabase (inMemoryOnly : Bool) (orc : Oracle) (st : Store) : LoadRes :=
  if loadDbInMemoryCheck inMemoryOnly then ⟨[], [none], [none], 0⟩
  else if orc.openFails then ⟨[], [some PErr.openErr], [none], 0⟩
  else ⟨[StoreOp.openCursor], [none], [none, some (st.map Prod.snd)], 1⟩

/-- State of the IndexedDB database handle: whether the database exists, its
version, and whether the named object store exists in it. -/
structure IDB where
  present : Bool
  version : Nat
  hasStore : Bool
deriving DecidableEq, Repr

/-- Effect of the onupgradeneeded handler of openDbEnsureStore: create the
object store when it is missing. -/
def idbUpgrade (db : IDB) : IDB := { db with hasStore := true }

/-- window.indexedDB.open. With no version: a missing database is created at
version 1 with an upgrade; an existing one opens as is. With a version: a
missing database is created at that version with an upgrade; a version above
the current one upgrades to it; the current version opens as is; a lower
version fails (VersionError). Returns the database state after the open and
whether onupgradeneeded fired. -/
def idbOpen (db : IDB) : Option Nat → Option (IDB × Bool)
  | none =>
    if db.present then some (db, false)
    else some (idbUpgrade ⟨true, 1, false⟩, true)
  | some v =>
    if db.present then
      if v < db.version then none
      else if v = db.version then some (db, false)
      else some (idbUpgrade { db with version := v }, true)
    else some (idbUpgrade ⟨true, v, false⟩, true)

/-- openDbEnsureStore (persistence.js lines 25-58): open the database at the
given version (or unversioned); if after opening the store is still missing,
close and reopen at version + 1, repeating until the store exists. Fuel bounds
the reopen recursion; the result carries the final database state and the
number of version upgrades performed. -/
def openDbEnsureStore : Nat → Option Nat → IDB → Option (IDB × Nat)
  | 0, _, _ => none
  | Nat.succ fuel, version, db =>
    match idbOpen db version with
    | none => none
    | some (db1, upgraded) =>
      if db1.hasStore then some (db1, if upgraded then 1 else 0)
      else
        match openDbEnsureStore fuel (some (db1.version + 1)) db1 with
        | none => none
        | some (db2, n) => some (db2, (if upgraded then 1 else 0) + n)

/-- Oracle with every request succeeding. -/
def orcOK : Oracle := ⟨false, fun _ => false, fun _ => false⟩

/-- Oracle whose open request fails. -/
def orcOpenFail : Oracle := ⟨true, fun _ => false, fun _ => false⟩

/-- Plain document with key a. -/
def docA : Doc := ⟨"a", false, false, false, ""⟩

/-- Plain document with key b. -/
def docB : Doc := ⟨"b", false, false, false, "x"⟩

/-- Plain document with key c. -/
def docC : Doc := ⟨"c", false, false, false, ""⟩

/-- Tombstone for key a. -/
def tombA : Doc := ⟨"a", true, false, false, ""⟩

/-- Index-created metadata marker. -/
def markerM : Doc := ⟨"m", false, true, false, ""⟩

/-- Oracle failing the put of b and the delete of a. -/
def orcPutBDelA : Oracle := ⟨false, fun s => s == "b", fun s => s == "a"⟩

/-- Oracle failing only the put of a. -/
def orcPutA : Oracle := ⟨false, fun s => s == "a", fun _ => false⟩

/-- Oracle failing only the delete of a. -/
def orcDelA : Oracle := ⟨false, fun _ => false, fun s => s == "a"⟩

/-- The identifier k is not bound in any scope enclosing the delReq.onerror
handler of persistNewState. -/
theorem kNotInDelHandlerScope : persistNewStateDelHandlerScope.contains "k" = false := by
  decide

/-- The in-memory-only check in loadDatabase always reads the falsy global,
whatever the instance flag is, because self is not bound in the function. -/
theorem loadDbInMemoryCheck_false (b : Bool) : loadDbInMemoryCheck b = false := by
  cases b <;> decide

/-- The upsert phase of persistCachedDatabase only ever produces put errors. -/
theorem pcdbPutPhase_err_shape (orc : Oracle) (os : List Doc) (st : Store)
    (ktd : List String) :
    (pcdbPutPhase orc os st ktd).err = none
    ∨ ∃ i, (pcdbPutPhase orc os st ktd).err = some (PErr.putErr i) := by
  induction os generalizing st ktd with
  | nil => exact Or.inl rfl
  | cons o os ih =>
    simp only [pcdbPutPhase]
    split
    · exact Or.inr ⟨o._id, rfl⟩
    · exact ih (storePut st o._id o) (putBookkeeping ktd o._id)

/-- C1: the claim says that after a successful persistCachedDatabase run the
durable key set equals the in-memory identifier set exactly. The code violates
this: with durable contents holding only key a and snapshot holding only the
document with id b, the run signals success yet leaves both a and b durable,
because the keysToDelete bookkeeping at line 137 removes the last array
element when the upserted key is absent instead of removing the key when
present. -/
theorem c1_convergence_fails :
    storeGetKeys (persistCachedDatabase false orcOK [docB] [("a", docA)]).store
      = ["a", "b"]
    ∧ (persistCachedDatabase false orcOK [docB] [("a", docA)]).calls = [none] := by
  decide

/-- C2: the claim says a successful upsert removes its key from keysToDelete
so the delete phase removes exactly the durable keys not upserted. The code
does the opposite: upserting the document with id a over a store already
holding a leaves a inside keysToDelete (putBookkeeping is a no-op when the key
is present), so the delete phase then deletes the very document that was just
upserted, and the run still reports success. -/
theorem c2_bookkeeping_fails :
    putBookkeeping ["a"] "a" = ["a"]
    ∧ (persistCachedDatabase false orcOK [docA] [("a", docA)]).store = []
    ∧ (persistCachedDatabase false orcOK [docA] [("a", docA)]).calls = [none] := by
  decide

/-- C3: the concrete delta of the claim behaves as stated, but the general
clause fails: a metadata marker matches neither branch of the eachSeries body,
so the series callback is never invoked and no later document of the delta is
processed, even though the transaction still completes and reports success. -/
theorem c3_marker_stalls_series :
    storeGetKeys (persistNewState orcOK [tombA, docB] [("a", docA), ("c", docC)]).store
      = ["b", "c"]
    ∧ (persistNewState orcOK [tombA, docB] [("a", docA), ("c", docC)]).calls = [none]
    ∧ (persistNewState orcOK [markerM, docB] []).halt = PNSHalt.stalledMeta "m"
    ∧ (persistNewState orcOK [markerM, docB] []).ops = []
    ∧ (persistNewState orcOK [markerM, docB] []).calls = [none] := by
  decide

/-- C4 counterexample: with a delta of the documents a then b where the put of
a fails, the document b is never processed, refuting the claim that a
per-record error lets every subsequent document still be processed. -/
theorem c4_counterexample :
    ((persistNewState orcPutA [docA, docB] []).ops.contains (StoreOp.put "b")
      = false)
    ∧ (persistNewState orcPutA [docA, docB] []).ops = [StoreOp.put "a"] := by
  decide

/-- C4 amended: a per-record put failure in persistNewState aborts the series,
so no later document is processed and the store is unchanged; nothing is
logged, because the final series callback takes no argument and tests the
enclosing open-error variable, which is null; the caller's callback fires once
with the transaction error raised by the aborting transaction. -/
theorem c4_amended (orc : Oracle) (st : Store) (o : Doc) (os : List Doc)
    (hopen : orc.openFails = false) (hdel : o.deleted = false)
    (hic : o.indexCreated = false) (hir : o.indexRemoved = false)
    (hfail : orc.putFails o._id = true) :
    (persistNewState orc (o :: os) st).ops = [StoreOp.put o._id]
    ∧ (persistNewState orc (o :: os) st).store = st
    ∧ (persistNewState orc (o :: os) st).calls = [some PErr.trxErr]
    ∧ (persistNewState orc (o :: os) st).consoleErrs = [] := by
  simp [persistNewState, pnsLoop, hopen, hdel, hic, hir, hfail]

/-- C4 amended witness at a concrete failing put. -/
theorem c4_amended_witness :
    (persistNewState orcPutA [docA, docB] []).ops = [StoreOp.put "a"]
    ∧ (persistNewState orcPutA [docA, docB] []).store = []
    ∧ (persistNewState orcPutA [docA, docB] []).calls = [some PErr.trxErr]
    ∧ (persistNewState orcPutA [docA, docB] []).consoleErrs = [] :=
  c4_amended orcPutA [] docA [docB] (by decide) (by decide) (by decide) (by decide)
    (by decide)

/-- C5: the claim says both Compactor and Loader short-circuit with success
and zero store operations when the datastore is in-memory-only. The Compactor
does, but the Loader does not: loadDatabase tests self.inMemoryOnly without
binding self, so the check reads the falsy global and the function still opens
the store and scans it with a cursor. -/
theorem c5_loader_ignores_inMemoryOnly :
    (persistCachedDatabase true orcOK [] []).ops = []
    ∧ (persistCachedDatabase true orcOK [] []).calls = [none]
    ∧ (loadDatabase true orcOK []).ops = [StoreOp.openCursor]
    ∧ loadDbInMemoryCheck true = false := by
  decide

/-- C6: the claim says compaction is idempotent on the durable key set. The
code is not: starting from a store holding key a with an unchanged snapshot of
that same document, the first run deletes the key (the line 137 bug leaves it
in keysToDelete) and the second run restores it, so the durable key set
changes between the two runs. -/
theorem c6_not_idempotent :
    storeGetKeys (persistCachedDatabase false orcOK [docA] [("a", docA)]).store = []
    ∧ storeGetKeys (persistCachedDatabase false orcOK [docA]
        (persistCachedDatabase false orcOK [docA] [("a", docA)]).store).store
      = ["a"] := by
  decide

/-- C7: opening through openDbEnsureStore with enough fuel always yields a
handle whose store exists, performing at most one version upgrade; exactly one
upgrade happens when the store or the database is missing, and when the store
already exists the handle is returned unchanged with zero upgrades. -/
theorem c7_schema_bootstrap (db : IDB) (fuel : Nat) (h : 2 ≤ fuel) :
    (∃ dbf : IDB, ∃ n : Nat, openDbEnsureStore fuel none db = some (dbf, n)
      ∧ dbf.hasStore = true ∧ n ≤ 1)
    ∧ (db.present = false → ∃ dbf : IDB,
        openDbEnsureStore fuel none db = some (dbf, 1))
    ∧ (db.hasStore = false → ∃ dbf : IDB,
        openDbEnsureStore fuel none db = some (dbf, 1))
    ∧ (db.present = true → db.hasStore = true →
        openDbEnsureStore fuel none db = some (db, 0)) := by
  obtain ⟨k, rfl⟩ : ∃ k, fuel = k + 2 := ⟨fuel - 2, by omega⟩
  obtain ⟨p, v, hs⟩ := db
  cases p <;> cases hs <;>
    simp [show k + 2 = Nat.succ (Nat.succ k) from rfl, openDbEnsureStore,
      idbOpen, idbUpgrade, Nat.succ_ne_self] <;>
    exact ⟨_, _, ⟨rfl, rfl⟩, rfl, by omega⟩

/-- C7 witness on a fresh database with no store. -/
theorem c7_schema_bootstrap_witness :
    (∃ dbf : IDB, ∃ n : Nat, openDbEnsureStore 2 none ⟨false, 0, false⟩ = some (dbf, n)
      ∧ dbf.hasStore = true ∧ n ≤ 1)
    ∧ ((false : Bool) = false → ∃ dbf : IDB,
        openDbEnsureStore 2 none ⟨false, 0, false⟩ = some (dbf, 1))
    ∧ ((false : Bool) = false → ∃ dbf : IDB,
        openDbEnsureStore 2 none ⟨false, 0, false⟩ = some (dbf, 1))
    ∧ ((false : Bool) = true → (false : Bool) = true →
        openDbEnsureStore 2 none ⟨false, 0, false⟩ = some (⟨false, 0, false⟩, 0)) :=
  c7_schema_bootstrap ⟨false, 0, false⟩ 2 (by decide)

/-- C8: when opening the database fails, each of the three operations surfaces
the connection error to the caller's callback and attempts no cursor scan, no
put and no delete. -/
theorem c8_open_failure (orc : Oracle) (h : orc.openFails = true)
    (objects deltaDocs : List Doc) (st : Store) (inMem : Bool) :
    (persistCachedDatabase false orc objects st).ops = []
    ∧ (persistCachedDatabase false orc objects st).calls = [some PErr.openErr]
    ∧ (persistNewState orc deltaDocs st).ops = []
    ∧ (persistNewState orc deltaDocs st).calls = [some PErr.openErr]
    ∧ (loadDatabase inMem orc st).ops = []
    ∧ (loadDatabase inMem orc st).calls = [some PErr.openErr] := by
  simp [persistCachedDatabase, persistNewState, loadDatabase,
    loadDbInMemoryCheck_false, h]

/-- C8 witness at a concrete failing open. -/
theorem c8_open_failure_witness :
    (persistCachedDatabase false orcOpenFail [docA] []).ops = []
    ∧ (persistCachedDatabase false orcOpenFail [docA] []).calls = [some PErr.openErr]
    ∧ (persistNewState orcOpenFail [docA] []).ops = []
    ∧ (persistNewState orcOpenFail [docA] []).calls = [some PErr.openErr]
    ∧ (loadDatabase false orcOpenFail []).ops = []
    ∧ (loadDatabase false orcOpenFail []).calls = [some PErr.openErr] :=
  c8_open_failure orcOpenFail (by decide) [docA] [docA] [] false

/-- C9 counterexample: with durable contents holding key a, an empty snapshot
and a failing delete of a, the delete error carrying the key reaches only
console.error; the caller's callback receives a transaction error that does
not carry the key, refuting the claim for deletes. -/
theorem c9_counterexample :
    (persistCachedDatabase false orcDelA [] [("a", docA)]).consoleErrs
      = [PErr.delErr "a"]
    ∧ (persistCachedDatabase false orcDelA [] [("a", docA)]).calls
      = [some PErr.trxErr]
    ∧ ((persistCachedDatabase false orcDelA [] [("a", docA)]).calls.contains
        (some (PErr.delErr "a")) = false) := by
  decide

/-- C9 amended: in persistCachedDatabase a failing put is reported to the
caller's callback with an error carrying the offending key, but a failing
delete is not: no callback invocation ever carries a delete error, and the
delete error with its key goes to console.error instead. -/
theorem c9_amended (orc : Oracle) (objects : List Doc) (st : Store) :
    (orc.openFails = false →
      ∀ i, (pcdbPutPhase orc objects st (storeGetKeys st)).err = some (PErr.putErr i) →
        some (PErr.putErr i) ∈ (persistCachedDatabase false orc objects st).calls)
    ∧ (∀ kk, (persistCachedDatabase false orc objects st).calls.contains
        (some (PErr.delErr kk)) = false)
    ∧ (orc.openFails = false →
      ∀ kk, (pcdbDelPhase orc (pcdbPutPhase orc objects st (storeGetKeys st)).ktd
          (pcdbPutPhase orc objects st (storeGetKeys st)).store).err
        = some (PErr.delErr kk) →
        PErr.delErr kk ∈ (persistCachedDatabase false orc objects st).consoleErrs) := by
  refine ⟨?_, ?_, ?_⟩
  · intro hopen i herr
    simp [persistCachedDatabase, hopen, herr]
  · intro kk
    by_cases hopen : orc.openFails
    · simp [persistCachedDatabase, hopen]
    · rcases pcdbPutPhase_err_shape orc objects st (storeGetKeys st) with hnone | ⟨i, hi⟩
      · simp only [persistCachedDatabase, hopen, if_false, Bool.false_eq_true, hnone]
        simp [hnone]
      · simp [persistCachedDatabase, hopen, hi]
  · intro hopen kk herr
    simp [persistCachedDatabase, hopen, herr]

/-- C9 amended witness: a failing put of b reaches the callback carrying b,
while a failing delete of a appears only in console.error. -/
theorem c9_amended_witness :
    some (PErr.putErr "b")
      ∈ (persistCachedDatabase false orcPutBDelA [docB] [("a", docA)]).calls
    ∧ ((persistCachedDatabase false orcPutBDelA [docB] [("a", docA)]).calls.contains
        (some (PErr.delErr "a")) = false)
    ∧ PErr.delErr "a"
      ∈ (persistCachedDatabase false orcPutBDelA [docB] [("a", docA)]).consoleErrs :=
  ⟨(c9_amended orcPutBDelA [docB] [("a", docA)]).1 (by decide) "b" (by decide),
   (c9_amended orcPutBDelA [docB] [("a", docA)]).2.1 "a",
   (c9_amended orcPutBDelA [docB] [("a", docA)]).2.2 (by decide) "a" (by decide)⟩

/-- C10: the delete-error handler of persistNewState references the unbound
identifier k, so when a tombstone's delete fails the handler raises a
ReferenceError instead of invoking the series callback: the series halts in
the refError state and no callback invocation of persistNewState ever carries
a delete error. -/
theorem c10_delete_error_reference_error :
    persistNewStateDelHandlerScope.contains "k" = false
    ∧ (∀ (orc : Oracle) (o : Doc) (os : List Doc) (st : Store),
        o.deleted = true → orc.delFails o._id = true →
        (pnsLoop orc (o :: os) st).halt = PNSHalt.refError)
    ∧ (∀ (orc : Oracle) (objects : List Doc) (st : Store) (kk : String),
        (persistNewState orc objects st).calls.contains (some (PErr.delErr kk))
          = false) := by
  refine ⟨by decide, ?_, ?_⟩
  · intro orc o os st hdel hfail
    have hnk : "k" ∉ persistNewStateDelHandlerScope := by decide
    simp [pnsLoop, hdel, hfail, hnk]
  · intro orc objects st kk
    by_cases hopen : orc.openFails
    · simp [persistNewState, hopen]
    · simp only [persistNewState, hopen, if_false, Bool.false_eq_true]
      simp

/-- C10 witness: a concrete failing tombstone delete halts in refError and no
delete error reaches any callback. -/
theorem c10_delete_error_reference_error_witness :
    (pnsLoop orcDelA [tombA] []).halt = PNSHalt.refError
    ∧ ((persistNewState orcDelA [tombA] []).calls.contains
        (some (PErr.delErr "a")) = false) :=
  ⟨c10_delete_error_reference_error.2.1 orcDelA tombA [] [] (by decide) (by decide),
   c10_delete_error_reference_error.2.2 orcDelA [tombA] [] "a"⟩
